import Mathlib

/-!
Verification development for the share-management client declared in
`src/gui/share.h` (classes `Share`, `LinkShare`, `ShareManager`).

The header declares the public interface, the signals and the data members;
the method bodies live in a translation unit that is not part of this
repository snapshot, so every behavioural definition below is modelled from
the specification (doc comments say so explicitly).  The enumerations, the
member lists and the constructor signatures are taken directly from the
header.

Modelling conventions:
* Qt signals become values of explicit outcome inductives (`ShareSignal`,
  `ManagerSignal`); an asynchronous operation is a pure function from the
  pre-state and the server's reply to the post-state and the emitted outcome.
* `QString` is `String`, `QUrl` is `String`, `QDate` is `Option Nat`
  (`none` = invalid/absent date), permission flag sets are `Nat` bit masks.
* The `AccountPtr` member is an opaque external collaborator and is omitted
  from the state; no claim mentions it.
-/

/-- Permission flag `PermissionRead = 1` from the `Share::Permission` enum. -/
def PermissionRead : Nat := 1

/-- Permission flag `PermissionUpdate = 2` from the `Share::Permission` enum. -/
def PermissionUpdate : Nat := 2

/-- Permission flag `PermissionCreate = 4` from the `Share::Permission` enum. -/
def PermissionCreate : Nat := 4

/-- Permission flag `PermissionDelete = 8` from the `Share::Permission` enum. -/
def PermissionDelete : Nat := 8

/-- Permission flag `PermissionShare = 16` from the `Share::Permission` enum. -/
def PermissionShare : Nat := 16

/-- Sentinel `PermissionDefault = 1 << 30` from the `Share::Permission` enum. -/
def PermissionDefault : Nat := 1 <<< 30

/-- Share type code `Share::TypeLink = 3` from the `Share::ShareType` enum. -/
def TypeLink : Nat := 3

/-- Result of one remote OCS call as seen by a completion handler: either the
server confirmed the operation, or it reported a numeric code and a message
(the `slotOcsError(int, QString)` path). -/
inductive ServerResult where
  | ok : ServerResult
  | err (code : Int) (message : String) : ServerResult
deriving DecidableEq, Repr

/-- Outcomes (Qt signals) an entity can emit: `permissionsSet()`,
`shareDeleted()`, `serverError(int, QString)` on `Share`, plus
`passwordSet()`, `expireDateSet()`, `publicUploadSet()` on `LinkShare`. -/
inductive ShareSignal where
  | permissionsSet : ShareSignal
  | shareDeleted : ShareSignal
  | serverError (code : Int) (message : String) : ShareSignal
  | passwordSet : ShareSignal
  | expireDateSet : ShareSignal
  | publicUploadSet : ShareSignal
deriving DecidableEq, Repr

/-- State of a `Share` entity: the protected members `_id`, `_path`,
`_shareType`, `_permissions`, `_shareWith` of class `Share` (the `_account`
pointer is an opaque external collaborator and is omitted). -/
structure Share where
  id : String
  path : String
  shareType : Nat
  permissions : Nat
  shareWith : Option String
deriving DecidableEq, Repr

/-- Accessor `Share::getId`. -/
def Share.getId (s : Share) : String := s.id

/-- Accessor `Share::getShareType`. -/
def Share.getShareType (s : Share) : Nat := s.shareType

/-- Accessor `Share::getPermissions`. -/
def Share.getPermissions (s : Share) : Nat := s.permissions

/-- Accessor `Share::getShareWith`. -/
def Share.getShareWith (s : Share) : Option String := s.shareWith

/-- The `Share` constructor: all fields are supplied by the caller (the
server-assigned id among them) and never reassigned afterwards. -/
def Share.construct (id path : String) (shareType : Nat) (permissions : Nat)
    (shareWith : Option String) : Share :=
  { id := id, path := path, shareType := shareType, permissions := permissions,
    shareWith := shareWith }

/-- The `Share` constructor with its default arguments
(`permissions = PermissionDefault`, `shareWith = null`). -/
def Share.constructDefault (id path : String) (shareType : Nat) : Share :=
  Share.construct id path shareType PermissionDefault none

/-- Modelled from the spec: body of `Share::setPermissions` /
`slotPermissionsSet` (not in this snapshot).  Issues a remote
permission-update call; on confirmed success the permission field is updated
to the requested value and `permissionsSet` is emitted; on server failure the
state is left unchanged and `serverError(code, message)` is emitted. -/
def Share.setPermissions (s : Share) (p : Nat) (r : ServerResult) :
    Share × ShareSignal :=
  match r with
  | ServerResult.ok => ({ s with permissions := p }, ShareSignal.permissionsSet)
  | ServerResult.err code msg => (s, ShareSignal.serverError code msg)

/-- Modelled from the spec: body of `Share::deleteShare` / `slotDeleted`
(not in this snapshot).  Issues a remote delete call; on success only the
`shareDeleted` outcome fires and no data field is mutated (the entity performs
no self-destruction); on failure `serverError` fires and the state is
unchanged. -/
def Share.deleteShare (s : Share) (r : ServerResult) : Share × ShareSignal :=
  match r with
  | ServerResult.ok => (s, ShareSignal.shareDeleted)
  | ServerResult.err code msg => (s, ShareSignal.serverError code msg)

/-- State of a `LinkShare` entity: the inherited `Share` members plus the
private members `_passwordSet`, `_expireDate`, `_url`, and the public-upload
attribute.  The public-upload boolean is modelled from the spec: the header
declares `getPublicUpload`/`setPublicUpload` but the snapshot shows no storage
member for it, and the spec lists it as a distinct independently-settable
attribute of the link entity. -/
structure LinkShare extends Share where
  passwordSet : Bool
  expireDate : Option Nat
  url : String
  publicUpload : Bool
deriving DecidableEq, Repr

/-- Accessor `LinkShare::getLink`. -/
def LinkShare.getLink (l : LinkShare) : String := l.url

/-- Accessor `LinkShare::getPublicUpload`. -/
def LinkShare.getPublicUpload (l : LinkShare) : Bool := l.publicUpload

/-- Accessor `LinkShare::isPasswordSet`. -/
def LinkShare.isPasswordSet (l : LinkShare) : Bool := l.passwordSet

/-- Accessor `LinkShare::getExpireDate`. -/
def LinkShare.getExpireDate (l : LinkShare) : Option Nat := l.expireDate

/-- Accessor `Share::getId` lifted to `LinkShare`. -/
def LinkShare.getId (l : LinkShare) : String := l.toShare.getId

/-- Accessor `Share::getShareType` lifted to `LinkShare`. -/
def LinkShare.getShareType (l : LinkShare) : Nat := l.toShare.getShareType

/-- Accessor `Share::getPermissions` lifted to `LinkShare`. -/
def LinkShare.getPermissions (l : LinkShare) : Nat := l.toShare.getPermissions

/-- The `LinkShare` constructor: id, path, permissions, password-set flag,
url and expiry date as in the header's constructor signature; the share type
is always `TypeLink` and there is no recipient.  The initial public-upload
value is modelled from the spec as an extra attribute. -/
def LinkShare.construct (id path : String) (permissions : Nat)
    (passwordSet : Bool) (url : String) (expireDate : Option Nat)
    (publicUpload : Bool) : LinkShare :=
  { toShare := Share.construct id path TypeLink permissions none,
    passwordSet := passwordSet, expireDate := expireDate, url := url,
    publicUpload := publicUpload }

/-- Modelled from the spec: body of `LinkShare::setPassword` /
`slotPasswordSet` (not in this snapshot).  The submitted password string is
sent to the server and never retained; on confirmed success only the
password-set boolean is updated (set when the submitted password is
non-empty, cleared when it is empty) and `passwordSet` is emitted; on failure
the state is unchanged and `serverError` is emitted. -/
def LinkShare.setPassword (l : LinkShare) (password : String)
    (r : ServerResult) : LinkShare × ShareSignal :=
  match r with
  | ServerResult.ok =>
      ({ l with passwordSet := if password = "" then false else true },
       ShareSignal.passwordSet)
  | ServerResult.err code msg => (l, ShareSignal.serverError code msg)

/-- Modelled from the spec: body of `LinkShare::setExpireDate` /
`slotExpireDateSet` (not in this snapshot).  On confirmed success exactly the
expiry-date attribute is updated and `expireDateSet` is emitted; on failure
the state is unchanged and `serverError` is emitted. -/
def LinkShare.setExpireDate (l : LinkShare) (d : Option Nat)
    (r : ServerResult) : LinkShare × ShareSignal :=
  match r with
  | ServerResult.ok => ({ l with expireDate := d }, ShareSignal.expireDateSet)
  | ServerResult.err code msg => (l, ShareSignal.serverError code msg)

/-- Modelled from the spec: body of `LinkShare::setPublicUpload` /
`slotPublicUploadSet` (not in this snapshot).  On confirmed success exactly
the public-upload attribute is updated and `publicUploadSet` is emitted; on
failure the state is unchanged and `serverError` is emitted. -/
def LinkShare.setPublicUpload (l : LinkShare) (b : Bool) (r : ServerResult) :
    LinkShare × ShareSignal :=
  match r with
  | ServerResult.ok => ({ l with publicUpload := b }, ShareSignal.publicUploadSet)
  | ServerResult.err code msg => (l, ShareSignal.serverError code msg)

/-- `Share::setPermissions` acting on the base part of a `LinkShare`
(inherited method: it mutates only the inherited `_permissions` member). -/
def LinkShare.setPermissions (l : LinkShare) (p : Nat) (r : ServerResult) :
    LinkShare × ShareSignal :=
  match Share.setPermissions l.toShare p r with
  | (s, sig) => ({ l with toShare := s }, sig)

/-- `Share::deleteShare` acting on the base part of a `LinkShare`
(inherited method). -/
def LinkShare.deleteShare (l : LinkShare) (r : ServerResult) :
    LinkShare × ShareSignal :=
  match Share.deleteShare l.toShare r with
  | (s, sig) => ({ l with toShare := s }, sig)

/-- One raw share record of a server reply (a `QVariantMap` entry): the
scalar fields the parsing functions read, including the link-only fields
(url, password-set flag, expiry, public-upload) present on Link records. -/
structure RawShare where
  id : String
  path : String
  shareType : Nat
  permissions : Nat
  shareWith : Option String
  url : String
  passwordSet : Bool
  expireDate : Option Nat
  publicUpload : Bool
deriving DecidableEq, Repr

/-- Modelled from the spec: body of `ShareManager::parseShare` (not in this
snapshot).  Builds a plain `Share` entity by reading the record's scalar
fields directly. -/
def parseShare (r : RawShare) : Share :=
  Share.construct r.id r.path r.shareType r.permissions r.shareWith

/-- Modelled from the spec: body of `ShareManager::parseLinkShare` (not in
this snapshot).  Builds a `LinkShare` entity (share type `TypeLink`) by
additionally reading the link-only fields of the record. -/
def parseLinkShare (r : RawShare) : LinkShare :=
  LinkShare.construct r.id r.path r.permissions r.passwordSet r.url
    r.expireDate r.publicUpload

/-- A parsed entity as it appears in the `sharesFetched` list: either a plain
`Share` or a `LinkShare` (the C++ code stores both behind
`QSharedPointer<Share>`). -/
inductive ParsedShare where
  | plain (s : Share) : ParsedShare
  | link (l : LinkShare) : ParsedShare
deriving DecidableEq, Repr

/-- Modelled from the spec: classification step of
`ShareManager::slotSharesFetched` (not in this snapshot).  Each record is
independently classified by inspecting its share-type field: a `TypeLink`
record becomes a `LinkShare`, every other record a plain `Share`. -/
def parseEntity (r : RawShare) : ParsedShare :=
  if r.shareType == TypeLink then ParsedShare.link (parseLinkShare r)
  else ParsedShare.plain (parseShare r)

/-- Modelled from the spec: body of `ShareManager::slotSharesFetched` (not in
this snapshot).  Parses the reply's share collection in server order into the
entity list carried by the `sharesFetched` signal. -/
def sharesFetchedList (records : List RawShare) : List ParsedShare :=
  records.map parseEntity

/-- Outcomes (Qt signals) the manager can emit: `shareCreated`,
`linkShareCreated`, `linkShareRequiresPassword`, `sharesFetched`,
`serverError`. -/
inductive ManagerSignal where
  | shareCreated (s : Share) : ManagerSignal
  | linkShareCreated (l : LinkShare) : ManagerSignal
  | linkShareRequiresPassword : ManagerSignal
  | sharesFetched (shares : List ParsedShare) : ManagerSignal
  | serverError (code : Int) (message : String) : ManagerSignal
deriving DecidableEq, Repr

/-- A successful OCS reply (`QVariantMap`): the OCS status code and message,
whether the response indicates that link creation requires a password (the
spec leaves the exact detection heuristic over status/shape abstract, so it
is modelled as a predicate evaluated on the reply), and the parsed share
records of the data element. -/
structure OcsReply where
  statusCode : Int
  message : String
  passwordRequired : Bool
  records : List RawShare
deriving DecidableEq, Repr

/-- What a completion handler receives: the reply on success, or the OCS
error code and message. -/
inductive JobResult where
  | ok (reply : OcsReply) : JobResult
  | err (code : Int) (message : String) : JobResult
deriving DecidableEq, Repr

/-- A correlation entry's continuation (`_jobContinuation` value): which
logical operation spawned the call, with the data needed to finish it. -/
inductive JobCont where
  | fetchSharesK (path : String) : JobCont
  | createShareK (path : String) (shareType : Nat) (shareWith : String)
      (permissions : Nat) : JobCont
  | createLinkShareK (path : String) (password : String) : JobCont
deriving DecidableEq, Repr

/-- Modelled from the spec: body of `ShareManager::slotLinkShareCreated`
(not in this snapshot).  If the reply indicates that link creation requires a
password and none was supplied, the distinct `linkShareRequiresPassword`
outcome is emitted instead of a server error; otherwise the created link
share is parsed from the reply's record and `linkShareCreated` is emitted
(an empty data element is surfaced as a server error). -/
def slotLinkShareCreated (password : String) (reply : OcsReply) :
    ManagerSignal :=
  if reply.passwordRequired && (password == "") then
    ManagerSignal.linkShareRequiresPassword
  else
    match reply.records with
    | r :: _ => ManagerSignal.linkShareCreated (parseLinkShare r)
    | [] => ManagerSignal.serverError reply.statusCode reply.message

/-- Modelled from the spec: body of `ShareManager::slotShareCreated` (not in
this snapshot).  Parses the created share from the reply's record and emits
`shareCreated` (an empty data element is surfaced as a server error). -/
def slotShareCreated (reply : OcsReply) : ManagerSignal :=
  match reply.records with
  | r :: _ => ManagerSignal.shareCreated (parseShare r)
  | [] => ManagerSignal.serverError reply.statusCode reply.message

/-- Modelled from the spec: dispatch of a completed call through its
continuation.  The error handler is shared by all operation kinds and only
extracts the code and message (`slotOcsError`); the success handlers
interpret the payload according to the continuation's kind. -/
def dispatchJob (k : JobCont) (res : JobResult) : ManagerSignal :=
  match res with
  | JobResult.err code msg => ManagerSignal.serverError code msg
  | JobResult.ok reply =>
      match k with
      | JobCont.fetchSharesK _ =>
          ManagerSignal.sharesFetched (sharesFetchedList reply.records)
      | JobCont.createShareK _ _ _ _ => slotShareCreated reply
      | JobCont.createLinkShareK _ password =>
          slotLinkShareCreated password reply

/-- State of the `ShareManager`: the `_jobContinuation` correlation map,
keyed by the remote call's handle (the job object pointer in C++, modelled as
a `Nat` handle). -/
structure ShareManager where
  jobContinuation : List (Nat × JobCont)
deriving DecidableEq, Repr

/-- Modelled from the spec: registration step of every manager operation
(`createShare`, `createLinkShare`, `fetchShares`).  The correlation entry is
recorded, keyed by the call's handle, before the call is dispatched. -/
def ShareManager.issueJob (m : ShareManager) (h : Nat) (k : JobCont) :
    ShareManager :=
  { m with jobContinuation := (h, k) :: m.jobContinuation }

/-- Modelled from the spec: completion step shared by all manager operations
(not in this snapshot).  The handler looks up the correlation entry for the
finished call's handle, removes it, and emits exactly one outcome through the
continuation; a completion with no registered entry emits nothing. -/
def ShareManager.completeJob (m : ShareManager) (h : Nat) (res : JobResult) :
    ShareManager × List ManagerSignal :=
  match m.jobContinuation.lookup h with
  | none => (m, [])
  | some k =>
      ({ m with jobContinuation :=
          m.jobContinuation.filter (fun e => e.fst != h) },
       [dispatchJob k res])

/-- One full remote call as the manager performs it: register the correlation
entry, dispatch, then run the completion (or error) handler on the reply. -/
def ShareManager.runJob (m : ShareManager) (h : Nat) (k : JobCont)
    (res : JobResult) : ShareManager × List ManagerSignal :=
  (m.issueJob h k).completeJob h res

/-- `ShareManager::fetchShares(path)`: registers a fetch continuation for the
issued call. -/
def ShareManager.fetchShares (m : ShareManager) (h : Nat) (path : String) :
    ShareManager :=
  m.issueJob h (JobCont.fetchSharesK path)

/-- `ShareManager::createLinkShare(path, password)`: registers a link-create
continuation (carrying the supplied password) for the issued call. -/
def ShareManager.createLinkShare (m : ShareManager) (h : Nat)
    (path : String) (password : String) : ShareManager :=
  m.issueJob h (JobCont.createLinkShareK path password)

/-- `ShareManager::createShare(path, shareType, shareWith, permissions)`:
registers a create continuation for the issued call. -/
def ShareManager.createShare (m : ShareManager) (h : Nat) (path : String)
    (shareType : Nat) (shareWith : String) (permissions : Nat) :
    ShareManager :=
  m.issueJob h (JobCont.createShareK path shareType shareWith permissions)

/-- One operation of a link-share entity together with the server's answer
to it: the five operations named by the header (`setPermissions`,
`setPassword`, `setExpireDate`, `setPublicUpload`, `deleteShare`). -/
inductive ShareOp where
  | setPermissionsOp (p : Nat) (r : ServerResult) : ShareOp
  | setPasswordOp (password : String) (r : ServerResult) : ShareOp
  | setExpireDateOp (d : Option Nat) (r : ServerResult) : ShareOp
  | setPublicUploadOp (b : Bool) (r : ServerResult) : ShareOp
  | deleteOp (r : ServerResult) : ShareOp
deriving DecidableEq, Repr

/-- The state reached after one entity operation and its outcome. -/
def applyOp (l : LinkShare) : ShareOp → LinkShare
  | ShareOp.setPermissionsOp p r => (l.setPermissions p r).1
  | ShareOp.setPasswordOp password r => (l.setPassword password r).1
  | ShareOp.setExpireDateOp d r => (l.setExpireDate d r).1
  | ShareOp.setPublicUploadOp b r => (l.setPublicUpload b r).1
  | ShareOp.deleteOp r => (l.deleteShare r).1

/-- The state reached after a sequence of entity operations. -/
def applyOps (l : LinkShare) (ops : List ShareOp) : LinkShare :=
  ops.foldl applyOp l

/-- Every bitwise-OR combination of the five capability flags, one boolean
per flag. -/
def permissionMask (b1 b2 b3 b4 b5 : Bool) : Nat :=
  (cond b1 PermissionRead 0) ||| (cond b2 PermissionUpdate 0) |||
  (cond b3 PermissionCreate 0) ||| (cond b4 PermissionDelete 0) |||
  (cond b5 PermissionShare 0)

theorem applyOp_getId (l : LinkShare) (op : ShareOp) :
    (applyOp l op).getId = l.getId := by
  cases op with
  | setPermissionsOp p r => cases r <;> rfl
  | setPasswordOp password r => cases r <;> rfl
  | setExpireDateOp d r => cases r <;> rfl
  | setPublicUploadOp b r => cases r <;> rfl
  | deleteOp r => cases r <;> rfl

theorem applyOps_getId (l : LinkShare) (ops : List ShareOp) :
    (applyOps l ops).getId = l.getId := by
  induction ops generalizing l with
  | nil => rfl
  | cons op rest ih =>
      calc (applyOps l (op :: rest)).getId
          = (applyOps (applyOp l op) rest).getId := rfl
        _ = (applyOp l op).getId := ih (applyOp l op)
        _ = l.getId := applyOp_getId l op

/-- Claim C1: for every permissions value `p` requested via
`Share::setPermissions`, a success reply leaves the entity's permission field
equal to `p` (with the `permissionsSet` outcome), and a failure reply leaves
the entity entirely unchanged with a `serverError` outcome carrying the
server's code and message. -/
theorem setPermissions_success_updates_failure_preserves (s : Share) (p : Nat) :
    (Share.setPermissions s p ServerResult.ok).1.permissions = p ∧
    (Share.setPermissions s p ServerResult.ok).2 = ShareSignal.permissionsSet ∧
    ∀ code msg, Share.setPermissions s p (ServerResult.err code msg) =
      (s, ShareSignal.serverError code msg) :=
  ⟨rfl, rfl, fun _ _ => rfl⟩

/-- Claim C2: a remote call issued with a fresh handle has its correlation
entry present (under that handle) from before dispatch; running the
completion or error handler emits exactly one outcome and removes the entry,
returning the correlation map to its pre-call contents (hence its pre-call
size). -/
theorem jobCorrelation_balanced (m : ShareManager) (h : Nat) (k : JobCont)
    (res : JobResult) (hfresh : ∀ e ∈ m.jobContinuation, e.fst ≠ h) :
    (m.issueJob h k).jobContinuation.lookup h = some k ∧
    (m.runJob h k res).2.length = 1 ∧
    (m.runJob h k res).1.jobContinuation = m.jobContinuation := by
  have hlook : (m.issueJob h k).jobContinuation.lookup h = some k := by
    simp [ShareManager.issueJob, List.lookup]
  have hfilter : m.jobContinuation.filter (fun e => e.fst != h) =
      m.jobContinuation := by
    rw [List.filter_eq_self]
    intro a ha
    simpa using hfresh a ha
  refine ⟨hlook, ?_, ?_⟩ <;>
    simp [ShareManager.runJob, ShareManager.completeJob, hlook,
      ShareManager.issueJob, hfilter]

theorem jobCorrelation_balanced_witness :
    (∀ e ∈ (ShareManager.mk []).jobContinuation, e.fst ≠ 7) ∧
    ((ShareManager.mk []).runJob 7 (JobCont.fetchSharesK "/docs")
        (JobResult.err 404 "not found")).2.length = 1 ∧
    ((ShareManager.mk []).runJob 7 (JobCont.fetchSharesK "/docs")
        (JobResult.err 404 "not found")).1.jobContinuation = [] := by
  have hfresh : ∀ e ∈ (ShareManager.mk []).jobContinuation, e.fst ≠ 7 := by
    intro e he
    cases he
  have h := jobCorrelation_balanced (ShareManager.mk []) 7
    (JobCont.fetchSharesK "/docs") (JobResult.err 404 "not found") hfresh
  exact ⟨hfresh, h.2.1, h.2.2⟩

/-- Claim C3: parsing a fetch reply with N records yields exactly N entities
in the reply's order, each record with share type `TypeLink` becoming a
`LinkShare` entity exposing the record's url, password-set flag, expiry and
public-upload values through its accessors, and every other record a plain
`Share` entity. -/
theorem fetchShares_order_and_classification (records : List RawShare) :
    (sharesFetchedList records).length = records.length ∧
    ∀ i r, records.get? i = some r →
      (sharesFetchedList records).get? i =
        some (if r.shareType == TypeLink then
                ParsedShare.link (parseLinkShare r)
              else ParsedShare.plain (parseShare r)) ∧
      ((parseLinkShare r).getLink = r.url ∧
       (parseLinkShare r).isPasswordSet = r.passwordSet ∧
       (parseLinkShare r).getExpireDate = r.expireDate ∧
       (parseLinkShare r).getPublicUpload = r.publicUpload) := by
  constructor
  · simp [sharesFetchedList]
  · intro i r hr
    have hr2 : records[i]? = some r := by
      simpa [List.get?_eq_getElem?] using hr
    refine ⟨?_, rfl, rfl, rfl, rfl⟩
    simp [sharesFetchedList, List.get?_eq_getElem?, List.getElem?_map, hr2,
      parseEntity]

theorem fetchShares_order_and_classification_witness :
    ([RawShare.mk "5" "/f" 3 1 none "http://x" true (some 9) false,
      RawShare.mk "6" "/f" 0 31 (some "alice") "" false none false].get? 0 =
      some (RawShare.mk "5" "/f" 3 1 none "http://x" true (some 9) false)) ∧
    (sharesFetchedList
        [RawShare.mk "5" "/f" 3 1 none "http://x" true (some 9) false,
         RawShare.mk "6" "/f" 0 31 (some "alice") "" false none false]).get? 0 =
      some (ParsedShare.link (parseLinkShare
        (RawShare.mk "5" "/f" 3 1 none "http://x" true (some 9) false))) := by
  have h := (fetchShares_order_and_classification
      [RawShare.mk "5" "/f" 3 1 none "http://x" true (some 9) false,
       RawShare.mk "6" "/f" 0 31 (some "alice") "" false none false]).2 0
      (RawShare.mk "5" "/f" 3 1 none "http://x" true (some 9) false) rfl
  refine ⟨rfl, ?_⟩
  simpa [TypeLink] using h.1

/-- Claim C4: when the reply to `createLinkShare(path, "")` indicates that
link creation requires a password and none was supplied, the manager emits
the distinct `linkShareRequiresPassword` outcome and not a `serverError`
outcome. -/
theorem createLinkShare_empty_password_requires_password (reply : OcsReply)
    (hreq : reply.passwordRequired = true) :
    slotLinkShareCreated "" reply = ManagerSignal.linkShareRequiresPassword ∧
    ∀ code msg,
      slotLinkShareCreated "" reply ≠ ManagerSignal.serverError code msg := by
  have hout : slotLinkShareCreated "" reply =
      ManagerSignal.linkShareRequiresPassword := by
    simp [slotLinkShareCreated, hreq]
  refine ⟨hout, ?_⟩
  intro code msg hcontra
  rw [hout] at hcontra
  exact ManagerSignal.noConfusion hcontra

theorem createLinkShare_empty_password_requires_password_witness :
    (OcsReply.mk 403 "password required" true []).passwordRequired = true ∧
    slotLinkShareCreated "" (OcsReply.mk 403 "password required" true []) =
      ManagerSignal.linkShareRequiresPassword :=
  ⟨rfl, (createLinkShare_empty_password_requires_password
      (OcsReply.mk 403 "password required" true []) rfl).1⟩

/-- Claim C5: an entity built from a raw server record returns, through its
read accessors (and the stored path field, for which the header declares no
accessor), exactly the record's fields: identifier, path, share type and
permissions for a plain share; identifier, path, permissions, url,
password-set flag, expiry date and public-upload flag for a link share, whose
share type equals the record's whenever the record is Link-typed. -/
theorem parse_roundTrip (r : RawShare) :
    (r.shareType = TypeLink →
      (parseLinkShare r).getShareType = r.shareType) ∧
    (parseShare r).getId = r.id ∧
    (parseShare r).path = r.path ∧
    (parseShare r).getShareType = r.shareType ∧
    (parseShare r).getPermissions = r.permissions ∧
    (parseShare r).getShareWith = r.shareWith ∧
    (parseLinkShare r).getId = r.id ∧
    (parseLinkShare r).path = r.path ∧
    (parseLinkShare r).getPermissions = r.permissions ∧
    (parseLinkShare r).getLink = r.url ∧
    (parseLinkShare r).isPasswordSet = r.passwordSet ∧
    (parseLinkShare r).getExpireDate = r.expireDate ∧
    (parseLinkShare r).getPublicUpload = r.publicUpload := by
  refine ⟨?_, rfl, rfl, rfl, rfl, rfl, rfl, rfl, rfl, rfl, rfl, rfl, rfl⟩
  intro hlink
  simp [parseLinkShare, LinkShare.construct, LinkShare.getShareType,
    Share.construct, Share.getShareType, hlink]

theorem parse_roundTrip_witness :
    (RawShare.mk "9" "/p" 3 31 none "http://u" false none true).shareType =
      TypeLink ∧
    (parseLinkShare
        (RawShare.mk "9" "/p" 3 31 none "http://u" false none true)).getShareType =
      (RawShare.mk "9" "/p" 3 31 none "http://u" false none true).shareType :=
  ⟨rfl, (parse_roundTrip
      (RawShare.mk "9" "/p" 3 31 none "http://u" false none true)).1 rfl⟩

/-- Claim C6: each of the three link-share mutators, on a success reply,
changes exactly its targeted attribute and leaves every other attribute —
all inherited `Share` fields (captured by `toShare`) and the other link-only
fields — unchanged. -/
theorem linkMutators_frame (l : LinkShare) (password : String)
    (d : Option Nat) (b : Bool) :
    ((l.setPassword password ServerResult.ok).1.passwordSet =
        (if password = "" then false else true) ∧
     (l.setPassword password ServerResult.ok).1.toShare = l.toShare ∧
     (l.setPassword password ServerResult.ok).1.expireDate = l.expireDate ∧
     (l.setPassword password ServerResult.ok).1.url = l.url ∧
     (l.setPassword password ServerResult.ok).1.publicUpload = l.publicUpload) ∧
    ((l.setExpireDate d ServerResult.ok).1.expireDate = d ∧
     (l.setExpireDate d ServerResult.ok).1.toShare = l.toShare ∧
     (l.setExpireDate d ServerResult.ok).1.passwordSet = l.passwordSet ∧
     (l.setExpireDate d ServerResult.ok).1.url = l.url ∧
     (l.setExpireDate d ServerResult.ok).1.publicUpload = l.publicUpload) ∧
    ((l.setPublicUpload b ServerResult.ok).1.publicUpload = b ∧
     (l.setPublicUpload b ServerResult.ok).1.toShare = l.toShare ∧
     (l.setPublicUpload b ServerResult.ok).1.passwordSet = l.passwordSet ∧
     (l.setPublicUpload b ServerResult.ok).1.expireDate = l.expireDate ∧
     (l.setPublicUpload b ServerResult.ok).1.url = l.url) :=
  ⟨⟨rfl, rfl, rfl, rfl, rfl⟩, ⟨rfl, rfl, rfl, rfl, rfl⟩,
   ⟨rfl, rfl, rfl, rfl, rfl⟩⟩

/-- Claim C7: the entity never retains the submitted password value: on
confirmed success the password-set boolean is set to true and every other
part of the state is the old one, so two runs of `setPassword` with different
non-empty passwords leave the entity in identical states (and emit the same
outcome). -/
theorem setPassword_write_only (l : LinkShare) (p1 p2 : String)
    (h1 : p1 ≠ "") (h2 : p2 ≠ "") :
    l.setPassword p1 ServerResult.ok = l.setPassword p2 ServerResult.ok ∧
    (l.setPassword p1 ServerResult.ok).1.passwordSet = true ∧
    (l.setPassword p1 ServerResult.ok).1.toShare = l.toShare ∧
    (l.setPassword p1 ServerResult.ok).1.expireDate = l.expireDate ∧
    (l.setPassword p1 ServerResult.ok).1.url = l.url ∧
    (l.setPassword p1 ServerResult.ok).1.publicUpload = l.publicUpload := by
  refine ⟨?_, ?_, rfl, rfl, rfl, rfl⟩
  · simp [LinkShare.setPassword, h1, h2]
  · simp [LinkShare.setPassword, h1]

theorem setPassword_write_only_witness :
    ("alpha" ≠ "") ∧ ("beta" ≠ "") ∧
    (LinkShare.construct "1" "/x" 1 false "http://u" none false).setPassword
        "alpha" ServerResult.ok =
      (LinkShare.construct "1" "/x" 1 false "http://u" none false).setPassword
        "beta" ServerResult.ok := by
  refine ⟨by decide, by decide, ?_⟩
  exact (setPassword_write_only
    (LinkShare.construct "1" "/x" 1 false "http://u" none false)
    "alpha" "beta" (by decide) (by decide)).1

/-- Claim C8: `deleteShare` followed by a confirmed success mutates no data
field of the entity — the state is returned unchanged and the single
`shareDeleted` outcome fires; a failure likewise leaves the state unchanged
and fires `serverError`. -/
theorem deleteShare_frame (s : Share) :
    Share.deleteShare s ServerResult.ok = (s, ShareSignal.shareDeleted) ∧
    ∀ code msg, Share.deleteShare s (ServerResult.err code msg) =
      (s, ShareSignal.serverError code msg) :=
  ⟨rfl, fun _ _ => rfl⟩

/-- Claim C9: the server-assigned identifier is fixed at construction and
never reassigned: after any sequence of `setPermissions`, `setPassword`,
`setExpireDate`, `setPublicUpload` or `deleteShare` operations with any
server outcomes, `getId` still returns the value supplied to the
constructor. -/
theorem getId_immutable (id path : String) (permissions : Nat)
    (passwordSet : Bool) (url : String) (expireDate : Option Nat)
    (publicUpload : Bool) (ops : List ShareOp) :
    (applyOps (LinkShare.construct id path permissions passwordSet url
        expireDate publicUpload) ops).getId = id :=
  applyOps_getId _ ops

/-- Claim C10: `PermissionDefault = 1 <<< 30` is disjoint from every
bitwise-OR combination of the five capability flags: no such mask equals
`PermissionDefault` and none includes its bit, so default permissions are
always distinguishable from any explicit grant (including the full mask 31);
and a `Share` constructed without an explicit permissions argument carries
the sentinel. -/
theorem permissionDefault_sentinel :
    (∀ b1 b2 b3 b4 b5 : Bool,
      permissionMask b1 b2 b3 b4 b5 ≠ PermissionDefault ∧
      permissionMask b1 b2 b3 b4 b5 &&& PermissionDefault = 0) ∧
    ∀ id path t, (Share.constructDefault id path t).permissions =
      PermissionDefault :=
  ⟨by decide, fun _ _ _ => rfl⟩
